import Mathlib

/-!
Verification of the Daily Puzzle core: data model, answer acceptance,
difficulty engine, model rotation, lifecycle retry loop, evaluation, and
stump-tally ranking. Code-derived definitions are shallow embeddings of the
frontend sources; components of the spec whose implementation is not in the
repository sources (evaluator, rotation selector, orchestrator loop, rank)
are modelled from the spec and marked as such in their doc comments.
Difficulty values and rates are modelled as exact rationals.
-/

namespace DailyPuzzle

/-- Puzzle record as delivered to the frontend hook
(src/frontend/src/hooks/usePuzzle.js). `interaction_type` is `""` when the
field is absent (JS falsy), `media_url` is `none` for JS `null`. Opaque UI
content (answer options, inline SVG) is omitted: it is never consulted by
the logic under verification. -/
structure PuzzleData where
  id : String
  category : String
  difficulty : ℚ
  generator_model : String
  question : String
  solution : String
  interaction_type : String
  media_url : Option String
  deriving DecidableEq, Repr

/-- Substring containment, mirroring JS `String.prototype.includes`. -/
def strIncludes (s pat : String) : Bool := decide (pat.toList <:+: s.toList)

/-- Character-wise lowercasing, mirroring JS `String.prototype.toLowerCase`
on the ASCII content the puzzles use. -/
def toLowerStr (s : String) : String := String.mk (s.toList.map Char.toLower)

/-- Fallback answer check from `submitAnswer` in
src/frontend/src/hooks/usePuzzle.js (catch branch, lines 96-101):
multiple-choice answers are compared by strict equality with the declared
solution; any other answer is accepted iff its lowercase form contains both
substrings "5/3" and "-4". -/
def isCorrect (puzzle : PuzzleData) (answer : String) : Bool :=
  if puzzle.interaction_type = "multiple_choice" then
    answer == puzzle.solution
  else
    strIncludes (toLowerStr answer) "5/3" && strIncludes (toLowerStr answer) "-4"

/-- Split a lowercased character stream into whitespace-separated words;
`acc` holds the current word reversed. -/
def wsWords (acc : List Char) : List Char → List (List Char)
  | [] => if acc.isEmpty then [] else [acc.reverse]
  | c :: cs =>
      if c.isWhitespace then
        if acc.isEmpty then wsWords [] cs else acc.reverse :: wsWords [] cs
      else wsWords (c :: acc) cs

/-- Normalization rule as the spec words it: lowercase and collapse
whitespace, yielding the word sequence; two answers are equivalent under
the spec's rule iff their `specNormalize` word lists are equal. Stated from
the spec for comparison with the code's `isCorrect`; not a source
translation. -/
def specNormalize (s : String) : List String :=
  (wsWords [] (s.toList.map Char.toLower)).map String.mk

/-- Difficulty tier record returned by `getDifficultyTier` in
src/frontend/src/App.js (lines 34-38). -/
structure DifficultyTier where
  label : String
  color : String
  deriving DecidableEq, Repr

/-- `getDifficultyTier` from src/frontend/src/App.js lines 34-38. -/
def getDifficultyTier (difficulty : ℚ) : DifficultyTier :=
  if difficulty < 0.4 then ⟨"Mini", "#28a745"⟩
  else if difficulty < 0.7 then ⟨"Mid", "#ffc107"⟩
  else ⟨"Beast", "#dc3545"⟩

/-- Hook state of `usePuzzle` relevant to fetching: the `puzzle`, `loading`
and `error` fields set by `fetchDailyPuzzle`. -/
structure HookState where
  puzzle : Option PuzzleData
  loading : Bool
  error : Option String
  deriving DecidableEq, Repr

/-- Outcome of the `puzzleAPI.getDailyPuzzle()` call: the promise is
fulfilled with a (possibly falsy) body, or rejected. A body without a
`question` field is modelled by an empty `question` string. -/
inductive ApiOutcome where
  | fulfilled (data : Option PuzzleData)
  | rejected
  deriving DecidableEq, Repr

/-- The hardcoded development fallback puzzle installed by
`fetchDailyPuzzle` (usePuzzle.js lines 29-68, `useVisualArtDemo = true`
branch), keyed to today's date. -/
def fallbackPuzzle (today : String) : PuzzleData :=
  { id := today
    category := "art"
    difficulty := 0.65
    generator_model := "claude4"
    question := "What compositional technique is demonstrated by the grid lines and red focal point?"
    solution := "Rule of Thirds"
    interaction_type := "multiple_choice"
    media_url := none }

/-- `fetchDailyPuzzle` from src/frontend/src/hooks/usePuzzle.js lines
12-84: on a fulfilled response whose body has a truthy `question`, installs
the response body; otherwise (missing body, missing question, or rejected
promise) falls into the catch branch, installing the hardcoded fallback and
clearing the error; `loading` is cleared in `finally`. -/
def fetchDailyPuzzle (today : String) (outcome : ApiOutcome) : HookState :=
  match outcome with
  | .fulfilled (some d) =>
      if d.question ≠ "" then ⟨some d, false, none⟩
      else ⟨some (fallbackPuzzle today), false, none⟩
  | .fulfilled none => ⟨some (fallbackPuzzle today), false, none⟩
  | .rejected => ⟨some (fallbackPuzzle today), false, none⟩

/-! ## Solve-Window Evaluator and Difficulty Engine

No evaluator implementation exists under the repository's sources (only the
frontend's descriptive text in src/frontend/src/pages/StumpTally.js lines
173-177 and mock data); these definitions are modelled from the spec,
faithful to §4.3 and §3 of the design. -/

/-- Evaluation verdict for a closed puzzle. -/
inductive Verdict where
  | Solved
  | Stumped
  deriving DecidableEq, Repr

/-- Modelled from the spec: the named solved-threshold policy constant
(`solveRate < 0.5` means stumped). -/
def solvedThreshold : ℚ := 0.5

/-- Clamp a value into `[lo, hi]`. -/
def clamp (x lo hi : ℚ) : ℚ := max lo (min x hi)

/-- Modelled from the spec: `delta = +0.05` if `Solved`, `-0.05` if
`Stumped`. -/
def difficultyDelta : Verdict → ℚ
  | .Solved => 0.05
  | .Stumped => -0.05

/-- Modelled from the spec: `newDifficulty = clamp(current + delta, 0, 1)`. -/
def updateDifficulty (d : ℚ) (v : Verdict) : ℚ :=
  clamp (d + difficultyDelta v) 0 1

/-- Aggregate player results for one puzzle (external-sourced, read-only). -/
structure PlayerAttempt where
  totalAttempts : ℕ
  successfulSolves : ℕ
  deriving DecidableEq, Repr

/-- Modelled from the spec: `solveRate = successfulSolves / totalAttempts`,
treated as 0 when `totalAttempts = 0`. -/
def solveRate (pa : PlayerAttempt) : ℚ :=
  if pa.totalAttempts = 0 then 0
  else (pa.successfulSolves : ℚ) / (pa.totalAttempts : ℚ)

/-- Modelled from the spec: verdict rule `solveRate < 0.5 ⇒ Stumped`, else
`Solved`. -/
def verdictOf (pa : PlayerAttempt) : Verdict :=
  if solveRate pa < solvedThreshold then .Stumped else .Solved

/-- Lifecycle states of a puzzle (spec §4.2). -/
inductive PuzzleState where
  | Unscheduled
  | Generating
  | SelfValidating
  | CrossValidating
  | RegenerateRetry
  | Published
  | WindowOpen
  | Closed
  | Evaluated
  | GenerationFailed
  deriving DecidableEq, Repr

/-- One difficulty-history entry (spec §3, DifficultyState.history). -/
structure HistoryEntry where
  date : ℕ
  previousDifficulty : ℚ
  delta : ℚ
  verdict : Verdict
  deriving DecidableEq, Repr

/-- Per-category difficulty state (spec §3). -/
structure DifficultyState where
  currentDifficulty : ℚ
  history : List HistoryEntry
  deriving DecidableEq, Repr

/-- One stump-tally entry, keyed by (model, category) (spec §3). -/
structure TallyEntry where
  model : String
  category : String
  totalGenerated : ℕ
  successfulStumps : ℕ
  deriving DecidableEq, Repr

/-- The fields of a puzzle that evaluation reads and writes (spec §3). -/
structure EvalPuzzle where
  date : ℕ
  category : String
  generatorModel : String
  state : PuzzleState
  verdict : Option Verdict
  deriving DecidableEq, Repr

/-- The state touched by one evaluation: the puzzle, its category's
difficulty state, and the stump tally (kept in roster order). -/
structure EvalState where
  puzzle : EvalPuzzle
  diffState : DifficultyState
  tally : List TallyEntry
  deriving DecidableEq, Repr

/-- Result returned by `evaluate` (spec §4.3 contract). -/
structure EvalResult where
  verdict : Verdict
  newDifficulty : ℚ
  deriving DecidableEq, Repr

/-- Find the tally entry for `(model, category)`. -/
def lookupTally (model category : String) : List TallyEntry → Option TallyEntry
  | [] => none
  | e :: rest =>
      if e.model = model ∧ e.category = category then some e
      else lookupTally model category rest

/-- Recorded successful stumps for `(model, category)`, 0 when absent. -/
def stumpsOf (model category : String) (t : List TallyEntry) : ℕ :=
  match lookupTally model category t with
  | some e => e.successfulStumps
  | none => 0

/-- Modelled from the spec: `totalGenerated += 1` and, if stumped,
`successfulStumps += 1` for the `(model, category)` entry, created if
absent (persistence supports create-if-absent, spec §6). -/
def bumpTally (model category : String) (stumped : Bool) :
    List TallyEntry → List TallyEntry
  | [] => [⟨model, category, 1, if stumped then 1 else 0⟩]
  | e :: rest =>
      if e.model = model ∧ e.category = category then
        { e with
          totalGenerated := e.totalGenerated + 1
          successfulStumps := e.successfulStumps + (if stumped then 1 else 0) } :: rest
      else e :: bumpTally model category stumped rest

/-- Modelled from the spec: the Solve-Window Evaluator (§4.3, no
implementation under the repository's sources). Precondition `Closed`:
computes the verdict from the attempt aggregate, clamps the difficulty,
appends a history entry, bumps the tally, and marks the puzzle `Evaluated`
with the stored verdict. Re-invocation on an `Evaluated` puzzle is a no-op
returning the stored result; any other state returns no result. -/
def evaluate (pa : PlayerAttempt) (s : EvalState) : EvalState × Option EvalResult :=
  if s.puzzle.state = PuzzleState.Evaluated then
    match s.puzzle.verdict with
    | some v => (s, some ⟨v, s.diffState.currentDifficulty⟩)
    | none => (s, none)
  else if s.puzzle.state = PuzzleState.Closed then
    let v := verdictOf pa
    let prev := s.diffState.currentDifficulty
    let nd := updateDifficulty prev v
    ({ puzzle := { s.puzzle with state := PuzzleState.Evaluated, verdict := some v }
       diffState :=
        { currentDifficulty := nd
          history := s.diffState.history ++ [⟨s.puzzle.date, prev, difficultyDelta v, v⟩] }
       tally := bumpTally s.puzzle.generatorModel s.puzzle.category
          (v == Verdict.Stumped) s.tally },
     some ⟨v, nd⟩)
  else (s, none)

/-! ## Model Rotation Selector

Modelled from the spec (§4.1): no selector implementation exists under the
repository's sources. -/

/-- The three puzzle categories. -/
inductive Category where
  | math
  | word
  | art
  deriving DecidableEq, Repr

/-- Modelled from the spec: fixed distinct small offset per category
(math=0, word=1, art=2). -/
def categoryOffset : Category → ℕ
  | .math => 0
  | .word => 1
  | .art => 2

/-- Modelled from the spec: `select(date, category, roster)` returns the
roster element at index `(daysSinceEpoch(date) + categoryOffset(category))
mod len(roster)`; an empty roster is the `NoGeneratorsAvailable` condition,
returned as `none`. -/
def select (daysSinceEpoch : ℕ) (c : Category) (roster : List String) :
    Option String :=
  if roster.isEmpty then none
  else roster[(daysSinceEpoch + categoryOffset c) % roster.length]?

/-! ## Orchestrator self-validation retry loop

Modelled from the spec (§4.2): no orchestrator implementation exists under
the repository's sources. -/

/-- Modelled from the spec: the generate/self-validate loop from a given
attempt count with the given number of attempts remaining. `validates i`
tells whether the candidate produced on attempt `i` passes self-validation.
On a match the puzzle moves on to `CrossValidating`; on a mismatch the
attempt counter is incremented and, once `maxAttempts` is exhausted, the
state is the terminal `GenerationFailed`. Returns the final state together
with `selfValidationAttempts`. -/
def retryAux (validates : ℕ → Bool) (attempts : ℕ) :
    ℕ → PuzzleState × ℕ
  | 0 => (PuzzleState.GenerationFailed, attempts)
  | remaining + 1 =>
      if validates attempts then (PuzzleState.CrossValidating, attempts + 1)
      else retryAux validates (attempts + 1) remaining

/-- Modelled from the spec: run the orchestrator's self-validation retry
loop from zero attempts with cap `maxAttempts`. -/
def runOrchestrator (validates : ℕ → Bool) (maxAttempts : ℕ) :
    PuzzleState × ℕ :=
  retryAux validates 0 maxAttempts

/-! ## Stump Tally ranking

Modelled from the spec (§4.4): the repository's sources display tally rows
in stored order over mock data (src/frontend/src/pages/StumpTally.js lines
112-116, src/frontend/src/components/StatsModal.js lines 92-110); the
`rank()` projection itself has no implementation there. -/

/-- `stumpRate = successfulStumps / totalGenerated`, 0 when nothing was
generated. -/
def stumpRate (e : TallyEntry) : ℚ :=
  if e.totalGenerated = 0 then 0
  else (e.successfulStumps : ℚ) / (e.totalGenerated : ℚ)

/-- Ranking order on index-tagged tally entries: descending `stumpRate`,
ties broken by higher `stumps`, then by roster (input) order, represented
by the index tag. -/
def RankLE (a b : ℕ × TallyEntry) : Prop :=
  stumpRate b.2 < stumpRate a.2 ∨
    (stumpRate a.2 = stumpRate b.2 ∧
      (b.2.successfulStumps < a.2.successfulStumps ∨
        (a.2.successfulStumps = b.2.successfulStumps ∧ a.1 ≤ b.1)))

instance (a b : ℕ × TallyEntry) : Decidable (RankLE a b) := by
  unfold RankLE
  infer_instance

/-- Modelled from the spec: `rank()` sorts the tally (tagged with its
roster position) by descending stump rate, ties by higher stumps, then by
roster order; a pure projection of the tally. -/
def rank (tally : List TallyEntry) : List (ℕ × TallyEntry) :=
  List.insertionSort RankLE tally.enum

/-- One row of the ranked view (spec §4.4 read contract). -/
structure RankRow where
  model : String
  stumps : ℕ
  attempts : ℕ
  rate : ℚ
  deriving DecidableEq, Repr

/-- The ranked view rows, in ranked order. -/
def rankRows (tally : List TallyEntry) : List RankRow :=
  (rank tally).map fun ie =>
    ⟨ie.2.model, ie.2.successfulStumps, ie.2.totalGenerated, stumpRate ie.2⟩

instance : IsTotal (ℕ × TallyEntry) RankLE where
  total a b := by
    unfold RankLE
    rcases lt_trichotomy (stumpRate a.2) (stumpRate b.2) with h | h | h
    · exact Or.inr (Or.inl h)
    · rcases Nat.lt_trichotomy a.2.successfulStumps b.2.successfulStumps with hs | hs | hs
      · exact Or.inr (Or.inr ⟨h.symm, Or.inl hs⟩)
      · rcases Nat.le_total a.1 b.1 with hi | hi
        · exact Or.inl (Or.inr ⟨h, Or.inr ⟨hs, hi⟩⟩)
        · exact Or.inr (Or.inr ⟨h.symm, Or.inr ⟨hs.symm, hi⟩⟩)
      · exact Or.inl (Or.inr ⟨h, Or.inl hs⟩)
    · exact Or.inl (Or.inl h)

instance : IsTrans (ℕ × TallyEntry) RankLE where
  trans a b c hab hbc := by
    unfold RankLE at hab hbc ⊢
    rcases hab with h1 | ⟨e1, hab2⟩
    · rcases hbc with h2 | ⟨e2, _⟩
      · exact Or.inl (lt_trans h2 h1)
      · exact Or.inl (by rw [← e2]; exact h1)
    · rcases hbc with h2 | ⟨e2, hbc2⟩
      · exact Or.inl (by rw [e1]; exact h2)
      · refine Or.inr ⟨e1.trans e2, ?_⟩
        rcases hab2 with s1 | ⟨es1, i1⟩
        · rcases hbc2 with s2 | ⟨es2, i2⟩
          · exact Or.inl (lt_trans s2 s1)
          · exact Or.inl (by omega)
        · rcases hbc2 with s2 | ⟨es2, i2⟩
          · exact Or.inl (by omega)
          · exact Or.inr ⟨by omega, by omega⟩

/-- A concrete `Closed` puzzle state matching the spec's Scenario B setup:
current difficulty 0.58, generating model already credited with 3 generated
and 1 stump. -/
def sampleClosedState : EvalState :=
  { puzzle :=
      { date := 20300
        category := "math"
        generatorModel := "claude4"
        state := PuzzleState.Closed
        verdict := none }
    diffState := { currentDifficulty := 0.58, history := [] }
    tally := [⟨"claude4", "math", 3, 1⟩] }

end DailyPuzzle

namespace DailyPuzzle

/-! ## Helper lemmas -/

/-- Bumping the tally with a stump increments exactly the `(model,
category)` entry's `successfulStumps`, whether the entry existed or is
created. -/
theorem stumpsOf_bumpTally (m c : String) :
    ∀ t : List TallyEntry, stumpsOf m c (bumpTally m c true t) = stumpsOf m c t + 1
  | [] => by simp [bumpTally, stumpsOf, lookupTally]
  | e :: rest => by
      by_cases h : e.model = m ∧ e.category = c
      · obtain ⟨h1, h2⟩ := h
        simp [bumpTally, stumpsOf, lookupTally, h1, h2]
      · simp only [bumpTally, stumpsOf, lookupTally, if_neg h]
        exact stumpsOf_bumpTally m c rest

/-- Updating on a `Stumped` verdict clamps `d - 0.05` into `[0, 1]`. -/
theorem updateDifficulty_stumped (x : ℚ) :
    updateDifficulty x Verdict.Stumped = clamp (x - 0.05) 0 1 := by
  unfold updateDifficulty difficultyDelta
  rw [sub_eq_add_neg]

/-- The retry loop's attempt counter never exceeds the starting count plus
the remaining budget. -/
theorem retryAux_attempts_le (v : ℕ → Bool) :
    ∀ r a, (retryAux v a r).2 ≤ a + r
  | 0, a => by simp [retryAux]
  | r + 1, a => by
      simp only [retryAux]
      split
      · omega
      · have := retryAux_attempts_le v r (a + 1)
        omega

/-- If every attempt in the remaining budget mismatches, the retry loop
ends in `GenerationFailed` having used the whole budget. -/
theorem retryAux_all_false (v : ℕ → Bool) :
    ∀ r a, (∀ i, a ≤ i → i < a + r → v i = false) →
      retryAux v a r = (PuzzleState.GenerationFailed, a + r)
  | 0, a => by simp [retryAux]
  | r + 1, a => fun hall => by
      have hva : v a = false := hall a le_rfl (by omega)
      have ih := retryAux_all_false v r (a + 1)
        (fun i h1 h2 => hall i (by omega) (by omega))
      simp only [retryAux, hva, Bool.false_eq_true, if_false, ih]
      congr 1
      omega

/-- The retry loop only ends in `GenerationFailed` or `CrossValidating`. -/
theorem retryAux_final_state (v : ℕ → Bool) :
    ∀ r a, (retryAux v a r).1 = PuzzleState.GenerationFailed ∨
      (retryAux v a r).1 = PuzzleState.CrossValidating
  | 0, a => by simp [retryAux]
  | r + 1, a => by
      simp only [retryAux]
      split
      · exact Or.inr rfl
      · exact retryAux_final_state v r (a + 1)

/-- Adding a common summand before `% L` is injective on summands below
`L`. -/
theorem add_mod_cancel_of_lt {L n i j : ℕ} (hi : i < L) (hj : j < L)
    (h : (n + i) % L = (n + j) % L) : i = j := by
  have hm : i ≡ j [MOD L] := Nat.ModEq.add_left_cancel' n h
  have : i % L = j % L := hm
  rwa [Nat.mod_eq_of_lt hi, Nat.mod_eq_of_lt hj] at this

/-- Category offsets are below 3. -/
theorem categoryOffset_lt_three (c : Category) : categoryOffset c < 3 := by
  cases c <;> simp [categoryOffset]

/-- Category offsets are distinct. -/
theorem categoryOffset_injective {c c' : Category}
    (h : categoryOffset c = categoryOffset c') : c = c' := by
  cases c <;> cases c' <;> simp_all [categoryOffset]

/-! ## Claim theorems -/

/-- C1 counterexample: the fallback acceptance check is not invariant under
the spec's case-insensitive, whitespace-collapsed normalization. The
development fallback art puzzle (multiple choice, solution "Rule of
Thirds") accepts the solution verbatim but rejects "rule of thirds", which
differs only in letter case; and on a free-text puzzle with declared
solution "Paris", the answer "paris" — equal to the solution under the
normalization rule — is rejected, because the free-text branch tests the
hardcoded substrings "5/3" and "-4" instead of comparing to the declared
solution. -/
theorem answer_normalization_counterexample :
    specNormalize "rule of thirds" = specNormalize (fallbackPuzzle "2025-08-14").solution ∧
    isCorrect (fallbackPuzzle "2025-08-14") (fallbackPuzzle "2025-08-14").solution = true ∧
    isCorrect (fallbackPuzzle "2025-08-14") "rule of thirds" = false ∧
    specNormalize "paris" =
      specNormalize (PuzzleData.mk "2025-08-10" "word" 0.5 "gpt5"
        "Capital of France?" "Paris" "" none).solution ∧
    isCorrect (PuzzleData.mk "2025-08-10" "word" 0.5 "gpt5"
      "Capital of France?" "Paris" "" none) "paris" = false := by
  refine ⟨by decide, by decide, by decide, by decide, by decide⟩

/-- C1 (amended): the fallback acceptance check compares a multiple-choice
answer to the declared solution by exact (case-sensitive) string equality;
any other answer is accepted exactly when its lowercased text contains both
substrings "5/3" and "-4" (hardcoded to the mock math puzzle), independent
of the declared solution; the free-text branch is invariant under letter
case, the multiple-choice branch is not. -/
theorem answer_acceptance_characterization (p : PuzzleData) (a a' : String) :
    (p.interaction_type = "multiple_choice" →
      (isCorrect p a = true ↔ a = p.solution)) ∧
    (p.interaction_type ≠ "multiple_choice" →
      (isCorrect p a = true ↔
        strIncludes (toLowerStr a) "5/3" = true ∧
          strIncludes (toLowerStr a) "-4" = true)) ∧
    (p.interaction_type ≠ "multiple_choice" → toLowerStr a = toLowerStr a' →
      isCorrect p a = isCorrect p a') := by
  refine ⟨fun h => ?_, fun h => ?_, fun h hl => ?_⟩
  · simp [isCorrect, h]
  · simp [isCorrect, h]
  · simp [isCorrect, h, hl]

/-- C1 amended-claim witness: the multiple-choice fallback puzzle accepts
its solution verbatim, and the free-text mock math puzzle accepts an
uppercased correct answer. -/
theorem answer_acceptance_characterization_witness :
    isCorrect (fallbackPuzzle "2025-08-14") "Rule of Thirds" = true ∧
    isCorrect (PuzzleData.mk "2025-08-10" "math" 0.58 "claude4" "q"
      "x = 5/3 or x = -4" "" none) "X = 5/3 OR X = -4" = true := by
  constructor
  · exact ((answer_acceptance_characterization (fallbackPuzzle "2025-08-14")
      "Rule of Thirds" "Rule of Thirds").1 rfl).mpr rfl
  · exact ((answer_acceptance_characterization
      (PuzzleData.mk "2025-08-10" "math" 0.58 "claude4" "q" "x = 5/3 or x = -4" "" none)
      "X = 5/3 OR X = -4" "X = 5/3 OR X = -4").2.1 (by decide)).mpr (by decide)

/-- C2: for difficulty `d ∈ [0,1]`, the update returns
`clamp(d + 0.05, 0, 1)` on `Solved` and `clamp(d - 0.05, 0, 1)` on
`Stumped`, and the result always lies in `[0,1]`. -/
theorem difficulty_update_clamped (d : ℚ) (v : Verdict)
    (h0 : 0 ≤ d) (h1 : d ≤ 1) :
    (v = Verdict.Solved → updateDifficulty d v = clamp (d + 0.05) 0 1) ∧
    (v = Verdict.Stumped → updateDifficulty d v = clamp (d - 0.05) 0 1) ∧
    0 ≤ updateDifficulty d v ∧ updateDifficulty d v ≤ 1 := by
  have hlo : ∀ x : ℚ, 0 ≤ clamp x 0 1 := fun x => le_max_left 0 _
  have hhi : ∀ x : ℚ, clamp x 0 1 ≤ 1 :=
    fun x => max_le zero_le_one (min_le_right x 1)
  cases v
  · exact ⟨fun _ => rfl, ⟨fun hv => Verdict.noConfusion hv,
      ⟨hlo (d + difficultyDelta Verdict.Solved), hhi (d + difficultyDelta Verdict.Solved)⟩⟩⟩
  · exact ⟨fun hv => Verdict.noConfusion hv, ⟨fun _ => updateDifficulty_stumped d,
      ⟨hlo (d + difficultyDelta Verdict.Stumped), hhi (d + difficultyDelta Verdict.Stumped)⟩⟩⟩

/-- C2 witness at `d = 0.58`, `Solved`: the result is `0.63 ∈ [0,1]`. -/
theorem difficulty_update_clamped_witness :
    updateDifficulty 0.58 Verdict.Solved = 0.63 ∧
    0 ≤ updateDifficulty 0.58 Verdict.Solved ∧
    updateDifficulty 0.58 Verdict.Solved ≤ 1 := by
  have h := difficulty_update_clamped 0.58 Verdict.Solved (by norm_num) (by norm_num)
  refine ⟨?_, h.2.2.1, h.2.2.2⟩
  rw [h.1 rfl]
  simp [clamp, min_def, max_def]
  norm_num

/-- C3: with at least one attempt, the verdict is `Stumped` exactly when
`successfulSolves / totalAttempts < 1/2`, and `Solved` otherwise. -/
theorem verdict_threshold (pa : PlayerAttempt) (h : 0 < pa.totalAttempts) :
    (verdictOf pa = Verdict.Stumped ↔
      (pa.successfulSolves : ℚ) / (pa.totalAttempts : ℚ) < 1 / 2) ∧
    (verdictOf pa = Verdict.Solved ↔
      ¬ (pa.successfulSolves : ℚ) / (pa.totalAttempts : ℚ) < 1 / 2) := by
  have hne : pa.totalAttempts ≠ 0 := Nat.pos_iff_ne_zero.mp h
  have hhalf : solvedThreshold = 1 / 2 := by norm_num [solvedThreshold]
  unfold verdictOf solveRate
  rw [if_neg hne, hhalf]
  split_ifs with hr
  · exact ⟨Iff.intro (fun _ => hr) (fun _ => rfl),
      Iff.intro False.elim (fun hn => absurd hr hn)⟩
  · exact ⟨Iff.intro False.elim (fun hlt => absurd hlt hr),
      Iff.intro (fun _ => hr) (fun _ => rfl)⟩

/-- C3 witness: 4 solves out of 10 attempts is a `Stumped` verdict. -/
theorem verdict_threshold_witness :
    verdictOf ⟨10, 4⟩ = Verdict.Stumped := by
  have h := verdict_threshold ⟨10, 4⟩ (by norm_num)
  exact h.1.mpr (by norm_num)

/-- C4: evaluating a `Closed` puzzle with zero attempts yields verdict
`Stumped`, clamps the difficulty down by 0.05, and increments the
generating model's `successfulStumps`. -/
theorem zero_attempts_stumped (s : EvalState) (pa : PlayerAttempt)
    (hc : s.puzzle.state = PuzzleState.Closed) (h0 : pa.totalAttempts = 0) :
    (evaluate pa s).2 =
      some ⟨Verdict.Stumped, clamp (s.diffState.currentDifficulty - 0.05) 0 1⟩ ∧
    (evaluate pa s).1.diffState.currentDifficulty =
      clamp (s.diffState.currentDifficulty - 0.05) 0 1 ∧
    stumpsOf s.puzzle.generatorModel s.puzzle.category (evaluate pa s).1.tally =
      stumpsOf s.puzzle.generatorModel s.puzzle.category s.tally + 1 := by
  have hv : verdictOf pa = Verdict.Stumped := by
    simp only [verdictOf, solveRate, h0, if_pos rfl, solvedThreshold]
    norm_num
  refine ⟨?_, ?_, ?_⟩ <;>
    simp [evaluate, hc, hv, updateDifficulty_stumped, stumpsOf_bumpTally]

/-- C4 witness, the spec's Scenario B: current difficulty 0.58 with zero
attempts evaluates to new difficulty 0.53 and bumps the model's stumps from
1 to 2. -/
theorem zero_attempts_stumped_witness :
    (evaluate ⟨0, 0⟩ sampleClosedState).1.diffState.currentDifficulty = 0.53 ∧
    stumpsOf sampleClosedState.puzzle.generatorModel
      sampleClosedState.puzzle.category (evaluate ⟨0, 0⟩ sampleClosedState).1.tally = 2 := by
  have h := zero_attempts_stumped sampleClosedState ⟨0, 0⟩ rfl rfl
  refine ⟨?_, ?_⟩
  · rw [h.2.1]
    simp [sampleClosedState, clamp, min_def, max_def]
    norm_num
  · rw [h.2.2]
    simp [sampleClosedState, stumpsOf, lookupTally]

/-- C5: the selector is the index formula
`(daysSinceEpoch + categoryOffset) mod len(roster)`, identical calls return
the same model, and on a roster of at least 3 distinct model identifiers,
distinct categories on the same date are assigned distinct models. -/
theorem rotation_deterministic_distinct (date : ℕ) (roster : List String)
    (c c' : Category) :
    (select date c roster = select date c roster) ∧
    (roster ≠ [] →
      select date c roster = roster[(date + categoryOffset c) % roster.length]? ∧
      (select date c roster).isSome = true) ∧
    (3 ≤ roster.length → roster.Nodup → c ≠ c' →
      select date c roster ≠ select date c' roster) := by
  refine ⟨rfl, fun h => ?_, fun h3 hnd hne => ?_⟩
  · have hlt : (date + categoryOffset c) % roster.length < roster.length :=
      Nat.mod_lt _ (List.length_pos.mpr h)
    constructor
    · simp [select, h]
    · simp [select, h, List.getElem?_eq_getElem hlt]
  · have hlen : roster ≠ [] := by
      intro e
      rw [e] at h3
      simp at h3
    have hi : (date + categoryOffset c) % roster.length < roster.length :=
      Nat.mod_lt _ (List.length_pos.mpr hlen)
    have hj : (date + categoryOffset c') % roster.length < roster.length :=
      Nat.mod_lt _ (List.length_pos.mpr hlen)
    have hij : (date + categoryOffset c) % roster.length ≠
        (date + categoryOffset c') % roster.length := by
      intro he
      exact hne (categoryOffset_injective
        (add_mod_cancel_of_lt
          (lt_of_lt_of_le (categoryOffset_lt_three c) h3)
          (lt_of_lt_of_le (categoryOffset_lt_three c') h3) he))
    simp only [select, List.isEmpty_eq_true, hlen, if_false,
      List.getElem?_eq_getElem hi, List.getElem?_eq_getElem hj]
    intro heq
    exact hij ((hnd.getElem_inj_iff).mp (Option.some.inj heq))

/-- C5 witness: on roster `[A, B, C]` at day 0, identical calls agree and
the math and word categories get distinct models. -/
theorem rotation_deterministic_distinct_witness :
    select 0 Category.math ["A", "B", "C"] = some "A" ∧
    select 0 Category.math ["A", "B", "C"] ≠ select 0 Category.word ["A", "B", "C"] := by
  have h := rotation_deterministic_distinct 0 ["A", "B", "C"] Category.math Category.word
  refine ⟨?_, h.2.2 (by decide) (by decide) (by decide)⟩
  have h2 := (h.2.1 (by decide)).1
  rw [h2]
  decide

/-- C6: the derived tier is Mini exactly below 0.4, Mid exactly on
[0.4, 0.7), and Beast exactly at or above 0.7; the derivation is total and
the bands are exhaustive and mutually exclusive. -/
theorem tier_bands (d : ℚ) :
    ((getDifficultyTier d).label = "Mini" ↔ d < 0.4) ∧
    ((getDifficultyTier d).label = "Mid" ↔ 0.4 ≤ d ∧ d < 0.7) ∧
    ((getDifficultyTier d).label = "Beast" ↔ 0.7 ≤ d) := by
  unfold getDifficultyTier
  split_ifs with h1 h2 <;>
    refine ⟨?_, ?_, ?_⟩ <;> simp_all <;> linarith

/-- C7: evaluation is idempotent: on an `Evaluated` puzzle it is a no-op
returning the stored verdict with the current difficulty, and evaluating a
`Closed` puzzle twice leaves the state and result of the first evaluation
unchanged. -/
theorem evaluation_idempotent (s : EvalState) (pa : PlayerAttempt) :
    (∀ v, s.puzzle.state = PuzzleState.Evaluated → s.puzzle.verdict = some v →
      evaluate pa s = (s, some ⟨v, s.diffState.currentDifficulty⟩)) ∧
    (s.puzzle.state = PuzzleState.Closed →
      evaluate pa (evaluate pa s).1 = evaluate pa s) := by
  constructor
  · intro v hs hv
    simp [evaluate, hs, hv]
  · intro hs
    simp [evaluate, hs]

/-- C7 witness: a concrete `Evaluated` no-op and a concrete double
evaluation of the `Closed` sample state. -/
theorem evaluation_idempotent_witness :
    evaluate ⟨5, 5⟩
        ⟨⟨7, "math", "gpt5", PuzzleState.Evaluated, some Verdict.Solved⟩, ⟨0.6, []⟩, []⟩ =
      (⟨⟨7, "math", "gpt5", PuzzleState.Evaluated, some Verdict.Solved⟩, ⟨0.6, []⟩, []⟩,
        some ⟨Verdict.Solved, 0.6⟩) ∧
    evaluate ⟨0, 0⟩ (evaluate ⟨0, 0⟩ sampleClosedState).1 =
      evaluate ⟨0, 0⟩ sampleClosedState := by
  exact ⟨(evaluation_idempotent _ ⟨5, 5⟩).1 Verdict.Solved rfl rfl,
    (evaluation_idempotent sampleClosedState ⟨0, 0⟩).2 rfl⟩

/-- C8: the self-validation retry loop terminates: when every attempt up to
the cap mismatches, the final state is the terminal `GenerationFailed`; the
loop is entered at most `maxAttempts` times; and the loop always ends in
`GenerationFailed` or `CrossValidating`. -/
theorem retry_loop_terminates (validates : ℕ → Bool) (maxAttempts : ℕ) :
    ((∀ i, i < maxAttempts → validates i = false) →
      runOrchestrator validates maxAttempts =
        (PuzzleState.GenerationFailed, maxAttempts)) ∧
    (runOrchestrator validates maxAttempts).2 ≤ maxAttempts ∧
    ((runOrchestrator validates maxAttempts).1 = PuzzleState.GenerationFailed ∨
      (runOrchestrator validates maxAttempts).1 = PuzzleState.CrossValidating) := by
  refine ⟨fun h => ?_, ?_, ?_⟩
  · have := retryAux_all_false validates maxAttempts 0
      (fun i _ h2 => h i (by omega))
    simpa [runOrchestrator] using this
  · simpa [runOrchestrator] using retryAux_attempts_le validates maxAttempts 0
  · exact retryAux_final_state validates maxAttempts 0

/-- C8 witness: with cap 3 and every self-validation mismatching, the run
ends in `GenerationFailed` after exactly 3 attempts. -/
theorem retry_loop_terminates_witness :
    runOrchestrator (fun _ => false) 3 = (PuzzleState.GenerationFailed, 3) :=
  (retry_loop_terminates (fun _ => false) 3).1 (fun _ _ => rfl)

/-- C9: `rank` returns a permutation of the (roster-position-tagged) tally
sorted by descending stump rate, ties broken by higher stumps, then by
roster order; it is a pure projection of the tally. -/
theorem rank_sorted_perm (tally : List TallyEntry) :
    List.Sorted RankLE (rank tally) ∧ List.Perm (rank tally) tally.enum :=
  ⟨List.sorted_insertionSort RankLE tally.enum,
    List.perm_insertionSort RankLE tally.enum⟩

/-- C10: whatever the daily-puzzle API call does, `fetchDailyPuzzle` leaves
a non-null puzzle, a null error, and loading cleared; on any failure
(rejected promise, missing body, or body without a question) the hardcoded
fallback puzzle keyed to today's date is installed. -/
theorem fetch_installs_fallback (today : String) (o : ApiOutcome) :
    ((fetchDailyPuzzle today o).puzzle.isSome = true ∧
      (fetchDailyPuzzle today o).error = none ∧
      (fetchDailyPuzzle today o).loading = false) ∧
    (∀ d : PuzzleData, o = ApiOutcome.fulfilled (some d) → d.question ≠ "" →
      (fetchDailyPuzzle today o).puzzle = some d) ∧
    ((o = ApiOutcome.rejected ∨ o = ApiOutcome.fulfilled none ∨
        (∃ d, o = ApiOutcome.fulfilled (some d) ∧ d.question = "")) →
      (fetchDailyPuzzle today o).puzzle = some (fallbackPuzzle today)) ∧
    (fallbackPuzzle today).id = today := by
  cases o with
  | rejected => simp [fetchDailyPuzzle, fallbackPuzzle]
  | fulfilled data =>
      cases data with
      | none => simp [fetchDailyPuzzle, fallbackPuzzle]
      | some d =>
          by_cases hq : d.question = "" <;>
            simp_all [fetchDailyPuzzle, fallbackPuzzle]

/-- C10 witness: a rejected API call still yields the fallback puzzle for
the day, no error, and loading cleared. -/
theorem fetch_installs_fallback_witness :
    (fetchDailyPuzzle "2025-10-11" ApiOutcome.rejected).puzzle =
      some (fallbackPuzzle "2025-10-11") ∧
    (fetchDailyPuzzle "2025-10-11" ApiOutcome.rejected).error = none ∧
    (fetchDailyPuzzle "2025-10-11" ApiOutcome.rejected).loading = false := by
  have h := fetch_installs_fallback "2025-10-11" ApiOutcome.rejected
  exact ⟨h.2.2.1 (Or.inl rfl), h.1.2.1, h.1.2.2⟩

end DailyPuzzle
